import Mathlib

/-!
Verification of the .SKIN multi-submesh binary decoder
(src/skin_imp.py and src/skin_imp_2,79b.py) against its
natural-language specification.

Modelling conventions, traced from the Python source:

* A file is a byte buffer, List Nat, read through a position cursor.
  Python f.read(n) returns AT MOST n bytes and never fails; this is
  readStr below.  struct.unpack("<...") raises struct.error when the
  buffer it is given is shorter than the format requires; a fixed-width
  read (f.read(n) followed by struct.unpack) is therefore readExact,
  which fails exactly when fewer than n bytes remain.  The only error
  the source can raise while decoding is this short-read struct.error,
  modelled as DecodeError.TruncatedInput.  DecodeError.InvalidCount is
  the second error of the specification taxonomy (section 7); it exists
  in the type so that statements can distinguish the two, but the source
  never raises it.
* 32-bit and 16-bit values are little-endian (unpackLE).  f32 fields are
  modelled by their 4-byte little-endian bit pattern: the decoder never
  computes with float values, it only regroups them, so the bit pattern
  is a faithful opaque representation.
* String fields keep the raw bytes that were read.  The source applies
  a lossy utf-8 decode with errors ignored to those bytes; no claim
  under verification depends on the text decoding itself, only on the
  length/emptiness of what was read, so the byte list is the faithful
  observable.
* The Blender side of read_submesh (lines 213-249 of skin_imp.py) is
  modelled by build_submesh: the data actually attached to the created
  object (mesh vertices and faces from from_pydata, the conditionally
  created UV layer and custom-normal set, the created material names in
  slot order, and the per-polygon material_index values).  from_pydata
  is modelled as creating one polygon per entry of the face list, in
  order.
-/

inductive DecodeError where
  | TruncatedInput
  | InvalidCount
deriving DecidableEq

deriving instance DecidableEq for Except

/-- Little-endian value of a byte list: unpackLE [b0, b1, ...] = b0 + 256*b1 + ... -/
def unpackLE : List Nat → Nat
  | [] => 0
  | b :: rest => b + 256 * unpackLE rest

/-- The n bytes of the buffer starting at position p (fewer if the buffer ends). -/
def byteSlice (buf : List Nat) (p n : Nat) : List Nat := (buf.drop p).take n

/-- Python f.read(n): returns up to n bytes and the advanced position; never fails. -/
def readStr (buf : List Nat) (p n : Nat) : List Nat × Nat :=
  (byteSlice buf p n, p + (byteSlice buf p n).length)

/-- f.read(n) followed by a struct.unpack needing exactly n bytes:
fails with the short-read error when fewer than n bytes remain. -/
def readExact (buf : List Nat) (p n : Nat) : Except DecodeError (List Nat × Nat) :=
  if (byteSlice buf p n).length = n then Except.ok (byteSlice buf p n, p + n)
  else Except.error DecodeError.TruncatedInput

/-- Sequencing of position-passing decode steps (error propagation of struct.error). -/
def andThen {α β : Type} (x : Except DecodeError (α × Nat))
    (f : α → Nat → Except DecodeError (β × Nat)) : Except DecodeError (β × Nat) :=
  match x with
  | Except.error e => Except.error e
  | Except.ok (a, p) => f a p

/-- struct.unpack of a single little-endian u32 from f.read(4). -/
def readU32 (buf : List Nat) (p : Nat) : Except DecodeError (Nat × Nat) :=
  andThen (readExact buf p 4) fun bs p1 => Except.ok (unpackLE bs, p1)

/-- struct.unpack of a single u8 from f.read(1). -/
def readU8 (buf : List Nat) (p : Nat) : Except DecodeError (Nat × Nat) :=
  andThen (readExact buf p 1) fun bs p1 => Except.ok (unpackLE bs, p1)

/-- Split a byte list into consecutive little-endian 32-bit words. -/
def leWords : List Nat → List Nat
  | b0 :: b1 :: b2 :: b3 :: rest => unpackLE [b0, b1, b2, b3] :: leWords rest
  | _ => []

/-- Split a byte list into consecutive little-endian 16-bit words. -/
def leHalves : List Nat → List Nat
  | b0 :: b1 :: rest => unpackLE [b0, b1] :: leHalves rest
  | _ => []

/-- Group a flat list into consecutive triples, dropping a trailing remainder:
the regrouping used for vertices, normals (3 floats each). -/
def triples : List Nat → List (Nat × Nat × Nat)
  | a :: b :: c :: rest => (a, b, c) :: triples rest
  | _ => []

/-- Group a flat list into consecutive pairs (uv coordinates). -/
def pairs : List Nat → List (Nat × Nat)
  | a :: b :: rest => (a, b) :: pairs rest
  | _ => []

/-- The Python list comprehension raw i to i+3 for i in range(0, n, 3):
chunks of three, with a final shorter chunk KEPT when the length is not
a multiple of three. -/
def chunk3 : List Nat → List (List Nat)
  | [] => []
  | a :: b :: c :: rest => [a, b, c] :: chunk3 rest
  | rest => [rest]

/-- skin_imp.py lines 162-165: the vertex block, read only when the count
is positive, then unpacked as count*3 floats and grouped in triples. -/
def readF32Triples (buf : List Nat) (p count : Nat) :
    Except DecodeError (List (Nat × Nat × Nat) × Nat) :=
  if count > 0 then
    andThen (readExact buf p (count * 12)) fun bs q => Except.ok (triples (leWords bs), q)
  else Except.ok ([], p)

/-- skin_imp.py lines 179-182: the uv block, count*2 floats grouped in pairs. -/
def readF32Pairs (buf : List Nat) (p count : Nat) :
    Except DecodeError (List (Nat × Nat) × Nat) :=
  if count > 0 then
    andThen (readExact buf p (count * 8)) fun bs q => Except.ok (pairs (leWords bs), q)
  else Except.ok ([], p)

/-- skin_imp.py lines 170-171: the flat face-index block of count u32 values. -/
def readU32Flat (buf : List Nat) (p count : Nat) :
    Except DecodeError (List Nat × Nat) :=
  if count > 0 then
    andThen (readExact buf p (count * 4)) fun bs q => Except.ok (leWords bs, q)
  else Except.ok ([], p)

/-- skin_imp.py lines 207-208: the flat material-id block of count u16 values. -/
def readU16Flat (buf : List Nat) (p count : Nat) :
    Except DecodeError (List Nat × Nat) :=
  if count > 0 then
    andThen (readExact buf p (count * 2)) fun bs q => Except.ok (leHalves bs, q)
  else Except.ok ([], p)

/-- ASCII byte list of a Lean string literal (used for the default names). -/
def strBytes (s : String) : List Nat := s.data.map Char.toNat

/-- One material_t record (skin_imp.py read_material return value, lines 63-74). -/
structure Material where
  color1 : Nat
  color2 : Nat
  alpha : Nat
  color3 : Nat
  color4 : Nat
  flag1 : Nat
  texture1_name : List Nat
  texture2_name : List Nat
  texture3_name : List Nat
  material_name : List Nat
deriving DecidableEq

/-- skin_imp.py read_material (lines 19-74): fixed sequence
u32 color1, u32 color2, f32 alpha, u32 color3, u32 color4, u8 flag,
then four length-prefixed strings.  Python reads each string with
f.read(len), which silently returns fewer bytes at end of file. -/
def read_material (buf : List Nat) (p0 : Nat) : Except DecodeError (Material × Nat) :=
  andThen (readExact buf p0 8) fun bs8 p1 =>
  andThen (readExact buf p1 4) fun bsA p2 =>
  andThen (readExact buf p2 8) fun bs8b p3 =>
  andThen (readExact buf p3 1) fun bsF p4 =>
  andThen (readU32 buf p4) fun len1 p5 =>
  andThen (readU32 buf (readStr buf p5 len1).2) fun len2 p7 =>
  andThen (readU32 buf (readStr buf p7 len2).2) fun len3 p9 =>
  andThen (readU32 buf (readStr buf p9 len3).2) fun len4 p11 =>
  Except.ok
    ({ color1 := unpackLE (bs8.take 4)
       color2 := unpackLE (bs8.drop 4)
       alpha := unpackLE bsA
       color3 := unpackLE (bs8b.take 4)
       color4 := unpackLE (bs8b.drop 4)
       flag1 := unpackLE bsF
       texture1_name := (readStr buf p5 len1).1
       texture2_name := (readStr buf p7 len2).1
       texture3_name := (readStr buf p9 len3).1
       material_name := (readStr buf p11 len4).1 }, (readStr buf p11 len4).2)

/-- skin_imp_2,79b.py line 55: the decode-time default of the material name,
applied when the declared length is zero. -/
def mat279_name_of (n : Nat) (bs : List Nat) : List Nat :=
  if n > 0 then bs else strBytes "ImportedMaterial"

/-- skin_imp_2,79b.py read_material_279 (lines 20-68): identical layout to
read_material, but an empty declared material-name length defaults to
ImportedMaterial at decode time. -/
def read_material_279 (buf : List Nat) (p0 : Nat) : Except DecodeError (Material × Nat) :=
  andThen (readExact buf p0 8) fun bs8 p1 =>
  andThen (readExact buf p1 4) fun bsA p2 =>
  andThen (readExact buf p2 8) fun bs8b p3 =>
  andThen (readExact buf p3 1) fun bsF p4 =>
  andThen (readU32 buf p4) fun len1 p5 =>
  andThen (readU32 buf (readStr buf p5 len1).2) fun len2 p7 =>
  andThen (readU32 buf (readStr buf p7 len2).2) fun len3 p9 =>
  andThen (readU32 buf (readStr buf p9 len3).2) fun len4 p11 =>
  Except.ok
    ({ color1 := unpackLE (bs8.take 4)
       color2 := unpackLE (bs8.drop 4)
       alpha := unpackLE bsA
       color3 := unpackLE (bs8b.take 4)
       color4 := unpackLE (bs8b.drop 4)
       flag1 := unpackLE bsF
       texture1_name := (readStr buf p5 len1).1
       texture2_name := (readStr buf p7 len2).1
       texture3_name := (readStr buf p9 len3).1
       material_name := mat279_name_of len4 (readStr buf p11 len4).1 },
     (readStr buf p11 len4).2)

/-- skin_imp.py line 82 (and skin_imp_2,79b.py line 76): the name given to the
created Blender material; an empty decoded name defaults to ImportedMaterial. -/
def create_blender_material_name (m : Material) : List Nat :=
  if m.material_name ≠ [] then m.material_name else strBytes "ImportedMaterial"

/-- skin_imp.py line 157: submesh name with the literal default used when
the declared length is zero. -/
def submesh_name_of (nameLen : Nat) (bs : List Nat) : List Nat :=
  if nameLen > 0 then bs else strBytes "Submesh"

/-- All data parsed by read_submesh before the Blender build
(locals of skin_imp.py lines 155-211), including the reserved fields. -/
structure SubmeshData where
  submesh_name : List Nat
  vertices : List (Nat × Nat × Nat)
  face_indices : List (List Nat)
  uv_flag : Nat
  uvs : List (Nat × Nat)
  normal_flag : Nat
  normals : List (Nat × Nat × Nat)
  extra_flag : Nat
  unknown_int3 : Nat
  materials : List Material
  matids : List Nat
  unknown_tail : List Nat
deriving DecidableEq

/-- Intermediate record for the fixed-layout middle of a submesh
(vertex block through material_count, skin_imp.py lines 160-198). -/
structure MidData where
  vertices : List (Nat × Nat × Nat)
  faceRaw : List Nat
  uv_flag : Nat
  uvs : List (Nat × Nat)
  normal_flag : Nat
  normals : List (Nat × Nat × Nat)
  extra_flag : Nat
  unknown_int3 : Nat
  material_count : Nat
deriving DecidableEq

/-- skin_imp.py lines 160-198: vertex count and block, face count and flat
index block, uv flag/count/block, normal flag/count/block, extra flag,
reserved u32, material count.  Every read here is fixed-width. -/
def read_submesh_mid (buf : List Nat) (p2 : Nat) : Except DecodeError (MidData × Nat) :=
  andThen (readU32 buf p2) fun vc p3 =>
  andThen (readF32Triples buf p3 vc) fun verts p4 =>
  andThen (readU32 buf p4) fun fc p5 =>
  andThen (readU32Flat buf p5 fc) fun faceRaw p6 =>
  andThen (readU8 buf p6) fun uvFlagV p7 =>
  andThen (readU32 buf p7) fun uc p8 =>
  andThen (readF32Pairs buf p8 uc) fun uvsV p9 =>
  andThen (readU8 buf p9) fun nFlagV p10 =>
  andThen (readU32 buf p10) fun nc p11 =>
  andThen (readF32Triples buf p11 nc) fun nsV p12 =>
  andThen (readU8 buf p12) fun eFlagV p13 =>
  andThen (readU32 buf p13) fun u3 p14 =>
  andThen (readU32 buf p14) fun mc p15 =>
  Except.ok
    ({ vertices := verts, faceRaw := faceRaw, uv_flag := uvFlagV, uvs := uvsV,
       normal_flag := nFlagV, normals := nsV, extra_flag := eFlagV,
       unknown_int3 := u3, material_count := mc }, p15)

/-- skin_imp.py lines 200-202: the material loop. -/
def readMaterials (buf : List Nat) : Nat → Nat → Except DecodeError (List Material × Nat)
  | 0, p => Except.ok ([], p)
  | Nat.succ n, p =>
    andThen (read_material buf p) fun m p1 =>
    andThen (readMaterials buf n p1) fun ms p2 =>
    Except.ok (m :: ms, p2)

/-- skin_imp.py lines 205-211: matid count, flat u16 matid block, and the
four trailing reserved u32 values. -/
def read_submesh_tail (buf : List Nat) (p16 : Nat) :
    Except DecodeError ((List Nat × List Nat) × Nat) :=
  andThen (readU32 buf p16) fun mic p17 =>
  andThen (readU16Flat buf p17 mic) fun mids p18 =>
  andThen (readExact buf p18 16) fun tailBs p19 =>
  Except.ok ((mids, leWords tailBs), p19)

/-- skin_imp.py read_submesh, parsing part (lines 155-211). -/
def read_submesh (buf : List Nat) (p0 : Nat) : Except DecodeError (SubmeshData × Nat) :=
  andThen (readU32 buf p0) fun nameLen p1 =>
  andThen (read_submesh_mid buf (readStr buf p1 nameLen).2) fun mid p15 =>
  andThen (readMaterials buf mid.material_count p15) fun mats p16 =>
  andThen (read_submesh_tail buf p16) fun mt p19 =>
  Except.ok
    ({ submesh_name := submesh_name_of nameLen (readStr buf p1 nameLen).1
       vertices := mid.vertices
       face_indices := chunk3 mid.faceRaw
       uv_flag := mid.uv_flag
       uvs := mid.uvs
       normal_flag := mid.normal_flag
       normals := mid.normals
       extra_flag := mid.extra_flag
       unknown_int3 := mid.unknown_int3
       materials := mats
       matids := mt.1
       unknown_tail := mt.2 }, p19)

/-- What read_submesh actually creates in the host (skin_imp.py lines
213-251): the observable Blender object.  The reserved fields of
SubmeshData have no counterpart here because the source discards them. -/
structure BuiltObject where
  name : List Nat
  mesh_vertices : List (Nat × Nat × Nat)
  mesh_faces : List (List Nat)
  uv_layer : Option (List (Nat × Nat))
  custom_normals : Option (List (Nat × Nat × Nat))
  material_names : List (List Nat)
  poly_material_index : List Nat
deriving DecidableEq

/-- skin_imp.py lines 213-251: mesh creation via from_pydata, UV layer and
custom normals attached only when present AND matching the vertex count,
material slots in file order, per-polygon material indices assigned only
when the matid list is nonempty and matches the polygon count, with ids
at or beyond the material-slot count leaving the default index 0. -/
def build_submesh (d : SubmeshData) : BuiltObject :=
  { name := d.submesh_name
    mesh_vertices := d.vertices
    mesh_faces := d.face_indices
    uv_layer :=
      if d.uvs ≠ [] ∧ d.uvs.length = d.vertices.length then some d.uvs else none
    custom_normals :=
      if d.normals ≠ [] ∧ d.normals.length = d.vertices.length then some d.normals else none
    material_names := d.materials.map create_blender_material_name
    poly_material_index :=
      if d.matids ≠ [] ∧ d.matids.length = d.face_indices.length then
        (List.range d.face_indices.length).map fun i =>
          if d.matids.getD i 0 < d.materials.length then d.matids.getD i 0 else 0
      else
        List.replicate d.face_indices.length 0 }

/-- The submesh loop of ImportSkinMultiSubmesh.read_file (lines 275-276):
each submesh is parsed and immediately realized as an object, in file order. -/
def readSubmeshObjs (buf : List Nat) : Nat → Nat → Except DecodeError (List BuiltObject × Nat)
  | 0, p => Except.ok ([], p)
  | Nat.succ n, p =>
    andThen (read_submesh buf p) fun d p1 =>
    andThen (readSubmeshObjs buf n p1) fun rest p2 =>
    Except.ok (build_submesh d :: rest, p2)

/-- ImportSkinMultiSubmesh.read_file (lines 268-276): u8 header byte,
three u32 header words, u32 submesh count, then the submesh loop. -/
def read_file_core (buf : List Nat) : Except DecodeError (List BuiltObject × Nat) :=
  andThen (readExact buf 0 1) fun _hb p1 =>
  andThen (readExact buf p1 12) fun _hw p2 =>
  andThen (readU32 buf p2) fun n p3 =>
  readSubmeshObjs buf n p3

/-- The outward decode: the ordered list of objects built from the file
(the specification section 6 names this decode_model). -/
def decode_model (buf : List Nat) : Except DecodeError (List BuiltObject) :=
  match read_file_core buf with
  | Except.ok (objs, _) => Except.ok objs
  | Except.error e => Except.error e

/-- Little-endian 4-byte encoding of a 32-bit value. -/
def le4 (w : Nat) : List Nat :=
  [w % 256, w / 256 % 256, w / 65536 % 256, w / 16777216 % 256]

/-- An empty material record: all fields zero, all strings empty
(what 37 zero bytes decode to). -/
def zeroMat : Material :=
  { color1 := 0, color2 := 0, alpha := 0, color3 := 0, color4 := 0, flag1 := 0,
    texture1_name := [], texture2_name := [], texture3_name := [],
    material_name := [] }

/-- A 37-byte all-zero material_t record. -/
def matZeros : List Nat := List.replicate 37 0

/-- What 37 zero bytes decode to under the 2.79 variant: as zeroMat but
with the decode-time default material name. -/
def impMat : Material :=
  { color1 := 0, color2 := 0, alpha := 0, color3 := 0, color4 := 0, flag1 := 0,
    texture1_name := [], texture2_name := [], texture3_name := [],
    material_name := strBytes "ImportedMaterial" }

/-- A minimal well-formed submesh record: 51 zero bytes
(empty name, no vertices, no faces, no uvs, no normals, no materials,
no matids, zero reserved fields). -/
def minimalSub : List Nat := List.replicate 51 0

/-- The decode of minimalSub. -/
def minimalSubData : SubmeshData :=
  { submesh_name := strBytes "Submesh", vertices := [], face_indices := [],
    uv_flag := 0, uvs := [], normal_flag := 0, normals := [], extra_flag := 0,
    unknown_int3 := 0, materials := [], matids := [], unknown_tail := [0, 0, 0, 0] }

/-- A submesh record whose face_index_count is 7 (indices 10..16),
with everything else empty: 79 bytes. -/
def c1buf : List Nat :=
  le4 0 ++ le4 0 ++ le4 7 ++
  le4 10 ++ le4 11 ++ le4 12 ++ le4 13 ++ le4 14 ++ le4 15 ++ le4 16 ++
  [0] ++ le4 0 ++ [0] ++ le4 0 ++ [0] ++ le4 0 ++ le4 0 ++ le4 0 ++
  List.replicate 16 0

/-- The decode of c1buf: note the kept trailing one-index face group. -/
def c1SubData : SubmeshData :=
  { submesh_name := strBytes "Submesh", vertices := [],
    face_indices := [[10, 11, 12], [13, 14, 15], [16]],
    uv_flag := 0, uvs := [], normal_flag := 0, normals := [], extra_flag := 0,
    unknown_int3 := 0, materials := [], matids := [], unknown_tail := [0, 0, 0, 0] }

/-- A submesh record with face_index_count 7 (hence 2 whole triples plus a
kept partial group), two all-zero materials, and matid_count 3 with
matids 1, 1, 0: 159 bytes. -/
def c5buf : List Nat :=
  le4 0 ++ le4 0 ++ le4 7 ++
  le4 0 ++ le4 1 ++ le4 2 ++ le4 3 ++ le4 4 ++ le4 5 ++ le4 6 ++
  [0] ++ le4 0 ++ [0] ++ le4 0 ++ [0] ++ le4 0 ++ le4 2 ++
  List.replicate 74 0 ++ le4 3 ++ [1, 0, 1, 0, 0, 0] ++ List.replicate 16 0

/-- A whole file whose submesh declares vertex_count 4294967295 while the
buffer ends right after the count: the vertex-block read cannot be satisfied. -/
def c4buf : List Nat :=
  [0] ++ le4 0 ++ le4 0 ++ le4 0 ++ le4 1 ++ le4 0 ++ [255, 255, 255, 255]

/-- A whole one-submesh file with every reserved/unknown field left as a
parameter: header byte hb, header words w1 w2 w3, submesh count 1, one
minimal submesh whose uv flag, normal flag, extra flag, reserved u32 and
four reserved tail words are uvf, nf, ef, rsv, t1..t4. -/
def mkDemoFile (hb w1 w2 w3 uvf nf ef rsv t1 t2 t3 t4 : Nat) : List Nat :=
  [hb,
   w1 % 256, w1 / 256 % 256, w1 / 65536 % 256, w1 / 16777216 % 256,
   w2 % 256, w2 / 256 % 256, w2 / 65536 % 256, w2 / 16777216 % 256,
   w3 % 256, w3 / 256 % 256, w3 / 65536 % 256, w3 / 16777216 % 256,
   1, 0, 0, 0,
   0, 0, 0, 0,
   0, 0, 0, 0,
   0, 0, 0, 0,
   uvf, 0, 0, 0, 0,
   nf, 0, 0, 0, 0,
   ef, rsv % 256, rsv / 256 % 256, rsv / 65536 % 256, rsv / 16777216 % 256,
   0, 0, 0, 0,
   0, 0, 0, 0,
   t1 % 256, t1 / 256 % 256, t1 / 65536 % 256, t1 / 16777216 % 256,
   t2 % 256, t2 / 256 % 256, t2 / 65536 % 256, t2 / 16777216 % 256,
   t3 % 256, t3 / 256 % 256, t3 / 65536 % 256, t3 / 16777216 % 256,
   t4 % 256, t4 / 256 % 256, t4 / 65536 % 256, t4 / 16777216 % 256]

/-- The single object every mkDemoFile decodes to. -/
def demoObj : BuiltObject :=
  { name := strBytes "Submesh", mesh_vertices := [], mesh_faces := [],
    uv_layer := none, custom_normals := none, material_names := [],
    poly_material_index := [] }

/-- The strict variant of read_material: identical to read_material except
that every length-prefixed string read demands its full declared byte
count, failing with TruncatedInput at the string itself (readExact in
place of the silently-short readStr).  This is the specification
section 4.1/4.2 cursor discipline; it is compared against the source
behaviour by the decode-equivalence theorems. -/
def read_material_strict (buf : List Nat) (p0 : Nat) :
    Except DecodeError (Material × Nat) :=
  andThen (readExact buf p0 8) fun bs8 p1 =>
  andThen (readExact buf p1 4) fun bsA p2 =>
  andThen (readExact buf p2 8) fun bs8b p3 =>
  andThen (readExact buf p3 1) fun bsF p4 =>
  andThen (readU32 buf p4) fun len1 p5 =>
  andThen (readExact buf p5 len1) fun t1 p6 =>
  andThen (readU32 buf p6) fun len2 p7 =>
  andThen (readExact buf p7 len2) fun t2 p8 =>
  andThen (readU32 buf p8) fun len3 p9 =>
  andThen (readExact buf p9 len3) fun t3 p10 =>
  andThen (readU32 buf p10) fun len4 p11 =>
  andThen (readExact buf p11 len4) fun mn p12 =>
  Except.ok
    ({ color1 := unpackLE (bs8.take 4)
       color2 := unpackLE (bs8.drop 4)
       alpha := unpackLE bsA
       color3 := unpackLE (bs8b.take 4)
       color4 := unpackLE (bs8b.drop 4)
       flag1 := unpackLE bsF
       texture1_name := t1
       texture2_name := t2
       texture3_name := t3
       material_name := mn }, p12)

/-- The material loop over the strict material reader. -/
def readMaterialsStrict (buf : List Nat) :
    Nat → Nat → Except DecodeError (List Material × Nat)
  | 0, p => Except.ok ([], p)
  | Nat.succ n, p =>
    andThen (read_material_strict buf p) fun m p1 =>
    andThen (readMaterialsStrict buf n p1) fun ms p2 =>
    Except.ok (m :: ms, p2)

/-- The strict variant of read_submesh: the name string read demands its
full declared length, and materials are read strictly. -/
def read_submesh_strict (buf : List Nat) (p0 : Nat) :
    Except DecodeError (SubmeshData × Nat) :=
  andThen (readU32 buf p0) fun nameLen p1 =>
  andThen (readExact buf p1 nameLen) fun nameBs p2 =>
  andThen (read_submesh_mid buf p2) fun mid p15 =>
  andThen (readMaterialsStrict buf mid.material_count p15) fun mats p16 =>
  andThen (read_submesh_tail buf p16) fun mt p19 =>
  Except.ok
    ({ submesh_name := submesh_name_of nameLen nameBs
       vertices := mid.vertices
       face_indices := chunk3 mid.faceRaw
       uv_flag := mid.uv_flag
       uvs := mid.uvs
       normal_flag := mid.normal_flag
       normals := mid.normals
       extra_flag := mid.extra_flag
       unknown_int3 := mid.unknown_int3
       materials := mats
       matids := mt.1
       unknown_tail := mt.2 }, p19)

/-- The submesh loop over the strict submesh reader. -/
def readSubmeshObjsStrict (buf : List Nat) :
    Nat → Nat → Except DecodeError (List BuiltObject × Nat)
  | 0, p => Except.ok ([], p)
  | Nat.succ n, p =>
    andThen (read_submesh_strict buf p) fun d p1 =>
    andThen (readSubmeshObjsStrict buf n p1) fun rest p2 =>
    Except.ok (build_submesh d :: rest, p2)

/-- The strict whole-file decode. -/
def read_file_core_strict (buf : List Nat) : Except DecodeError (List BuiltObject × Nat) :=
  andThen (readExact buf 0 1) fun _hb p1 =>
  andThen (readExact buf p1 12) fun _hw p2 =>
  andThen (readU32 buf p2) fun n p3 =>
  readSubmeshObjsStrict buf n p3

/-- The strict decode_model: raises TruncatedInput the moment ANY read,
string payloads included, cannot be satisfied in full. -/
def decode_model_strict (buf : List Nat) : Except DecodeError (List BuiltObject) :=
  match read_file_core_strict buf with
  | Except.ok (objs, _) => Except.ok objs
  | Except.error e => Except.error e

/-- A submesh record with two face groups, two materials and matching
matids (applied-assignment example). -/
def c5AppliedData : SubmeshData :=
  { submesh_name := [], vertices := [], face_indices := [[0, 1, 2], [0, 2, 3]],
    uv_flag := 0, uvs := [], normal_flag := 0, normals := [], extra_flag := 0,
    unknown_int3 := 0, materials := [zeroMat, zeroMat], matids := [1, 0],
    unknown_tail := [] }

/-- A submesh record with two face groups but a single matid
(skipped-assignment example). -/
def c5SkippedData : SubmeshData :=
  { submesh_name := [], vertices := [], face_indices := [[0, 1, 2], [0, 2, 3]],
    uv_flag := 0, uvs := [], normal_flag := 0, normals := [], extra_flag := 0,
    unknown_int3 := 0, materials := [zeroMat], matids := [1],
    unknown_tail := [] }

/-- Buffer position at or past the end: every later f.read returns short. -/
def atEnd (buf : List Nat) (p : Nat) : Prop := buf.length ≤ p

/-- Declared length of texture1_name in a material record starting at p0:
the u32 at offset 21 (after two u32 colors, the f32, two u32 colors and
the flag byte). -/
def texLen1 (buf : List Nat) (p0 : Nat) : Nat := unpackLE (byteSlice buf (p0 + 21) 4)

/-- Declared length of texture2_name: the u32 right after texture1_name. -/
def texLen2 (buf : List Nat) (p0 : Nat) : Nat :=
  unpackLE (byteSlice buf (p0 + 25 + texLen1 buf p0) 4)

/-- Declared length of texture3_name: the u32 right after texture2_name. -/
def texLen3 (buf : List Nat) (p0 : Nat) : Nat :=
  unpackLE (byteSlice buf (p0 + 29 + texLen1 buf p0 + texLen2 buf p0) 4)

/-- Declared length of material_name: the u32 right after texture3_name. -/
def texLen4 (buf : List Nat) (p0 : Nat) : Nat :=
  unpackLE (byteSlice buf (p0 + 33 + texLen1 buf p0 + texLen2 buf p0 + texLen3 buf p0) 4)

theorem byteSlice_length (buf : List Nat) (p n : Nat) :
    (byteSlice buf p n).length = min n (buf.length - p) := by
  simp [byteSlice]

theorem byteSlice_zero (buf : List Nat) (p : Nat) : byteSlice buf p 0 = [] := by
  simp [byteSlice]

theorem byteSlice_take (buf : List Nat) (p n k : Nat) (h : k ≤ n) :
    (byteSlice buf p n).take k = byteSlice buf p k := by
  simp [byteSlice, List.take_take, Nat.min_eq_left h]

theorem byteSlice_drop (buf : List Nat) (p n k : Nat) :
    (byteSlice buf p n).drop k = byteSlice buf (p + k) (n - k) := by
  simp [byteSlice, List.drop_take, List.drop_drop]

theorem andThen_okC {α β : Type} (a : α) (p : Nat)
    (f : α → Nat → Except DecodeError (β × Nat)) :
    andThen (Except.ok (a, p)) f = f a p := rfl

theorem andThen_errC {α β : Type} (e : DecodeError)
    (f : α → Nat → Except DecodeError (β × Nat)) :
    andThen (α := α) (Except.error e) f = Except.error e := rfl

theorem andThen_ok_iff {α β : Type} (x : Except DecodeError (α × Nat))
    (f : α → Nat → Except DecodeError (β × Nat)) (r : β × Nat) :
    andThen x f = Except.ok r ↔ ∃ a p, x = Except.ok (a, p) ∧ f a p = Except.ok r := by
  cases x with
  | error e => simp [andThen]
  | ok v =>
    obtain ⟨a, p⟩ := v
    simp only [andThen]
    constructor
    · intro h; exact ⟨a, p, rfl, h⟩
    · rintro ⟨a1, p1, hx, hf⟩
      injection hx with hx1
      injection hx1 with ha hp
      rw [ha, hp]; exact hf

theorem andThen_error_iff {α β : Type} (x : Except DecodeError (α × Nat))
    (f : α → Nat → Except DecodeError (β × Nat)) (e : DecodeError) :
    andThen x f = Except.error e ↔
      x = Except.error e ∨ ∃ a p, x = Except.ok (a, p) ∧ f a p = Except.error e := by
  cases x with
  | error e1 => simp [andThen]
  | ok v =>
    obtain ⟨a, p⟩ := v
    simp only [andThen]
    constructor
    · intro h; exact Or.inr ⟨a, p, rfl, h⟩
    · rintro (hx | ⟨a1, p1, hx, hf⟩)
      · exact absurd hx (by simp)
      · injection hx with hx1
        injection hx1 with ha hp
        rw [ha, hp]; exact hf

theorem readStr_val (buf : List Nat) (p n : Nat) :
    (readStr buf p n).1 = byteSlice buf p n := rfl

theorem readStr_full_pos (buf : List Nat) (p n : Nat)
    (h : (byteSlice buf p n).length = n) : (readStr buf p n).2 = p + n := by
  simp [readStr, h]

theorem readStr_short_atEnd (buf : List Nat) (p n : Nat)
    (h : (byteSlice buf p n).length ≠ n) : atEnd buf (readStr buf p n).2 := by
  have hl := byteSlice_length buf p n
  simp [readStr, atEnd, hl]
  omega

theorem readExact_full (buf : List Nat) (p n : Nat)
    (h : (byteSlice buf p n).length = n) :
    readExact buf p n = Except.ok (byteSlice buf p n, p + n) := by
  simp [readExact, h]

theorem readExact_short (buf : List Nat) (p n : Nat)
    (h : (byteSlice buf p n).length ≠ n) :
    readExact buf p n = Except.error DecodeError.TruncatedInput := by
  simp [readExact, h]

theorem readExact_atEnd (buf : List Nat) (p n : Nat)
    (he : atEnd buf p) (hn : 0 < n) :
    readExact buf p n = Except.error DecodeError.TruncatedInput := by
  apply readExact_short
  have hl := byteSlice_length buf p n
  simp [atEnd] at he
  omega

theorem readExact_ok_inv (buf : List Nat) (p n : Nat) (bs : List Nat) (p' : Nat)
    (h : readExact buf p n = Except.ok (bs, p')) :
    bs = byteSlice buf p n ∧ bs.length = n ∧ p' = p + n ∧ n ≤ buf.length - p := by
  by_cases hc : (byteSlice buf p n).length = n
  · rw [readExact_full buf p n hc] at h
    injection h with h1
    injection h1 with h2 h3
    have hl := byteSlice_length buf p n
    subst h2; subst h3
    exact ⟨rfl, hc, rfl, by omega⟩
  · rw [readExact_short buf p n hc] at h
    exact absurd h (by simp)

theorem readU32_ok_inv (buf : List Nat) (p v p' : Nat)
    (h : readU32 buf p = Except.ok (v, p')) :
    v = unpackLE (byteSlice buf p 4) ∧ p' = p + 4 ∧ p + 4 ≤ buf.length := by
  unfold readU32 at h
  rw [andThen_ok_iff] at h
  obtain ⟨bs, q, hx, hf⟩ := h
  obtain ⟨h1, h2, h3, h4⟩ := readExact_ok_inv buf p 4 bs q hx
  injection hf with hf1
  injection hf1 with hv hp
  refine ⟨by rw [← hv, h1], by rw [← hp, h3], by omega⟩

theorem readU8_ok_inv (buf : List Nat) (p v p' : Nat)
    (h : readU8 buf p = Except.ok (v, p')) :
    v = unpackLE (byteSlice buf p 1) ∧ p' = p + 1 ∧ p + 1 ≤ buf.length := by
  unfold readU8 at h
  rw [andThen_ok_iff] at h
  obtain ⟨bs, q, hx, hf⟩ := h
  obtain ⟨h1, h2, h3, h4⟩ := readExact_ok_inv buf p 1 bs q hx
  injection hf with hf1
  injection hf1 with hv hp
  refine ⟨by rw [← hv, h1], by rw [← hp, h3], by omega⟩

theorem readU32_atEnd (buf : List Nat) (p : Nat) (he : atEnd buf p) :
    readU32 buf p = Except.error DecodeError.TruncatedInput := by
  unfold readU32
  rw [readExact_atEnd buf p 4 he (by omega)]
  rfl

theorem readU8_atEnd (buf : List Nat) (p : Nat) (he : atEnd buf p) :
    readU8 buf p = Except.error DecodeError.TruncatedInput := by
  unfold readU8
  rw [readExact_atEnd buf p 1 he (by omega)]
  rfl

theorem chunk3_join (l : List Nat) : (chunk3 l).flatten = l := by
  induction l using chunk3.induct with
  | case1 => rfl
  | case2 a b c rest ih => simp [chunk3, ih]
  | case3 rest h1 h2 => cases rest with
    | nil => exact absurd rfl h1
    | cons x xs => simp [chunk3]

theorem chunk3_length (l : List Nat) : (chunk3 l).length = (l.length + 2) / 3 := by
  induction l using chunk3.induct with
  | case1 => rfl
  | case2 a b c rest ih =>
    simp [chunk3, ih]
    omega
  | case3 rest h1 h2 =>
    match rest, h1, h2 with
    | [x], _, _ => simp [chunk3]
    | [x, y], _, _ => simp [chunk3]
    | [], h1, _ => exact absurd rfl h1
    | a :: b :: c :: r, _, h2 => exact absurd rfl (h2 a b c r)

theorem chunk3_mem (l : List Nat) (g : List Nat) (h : g ∈ chunk3 l) :
    0 < g.length ∧ g.length ≤ 3 := by
  induction l using chunk3.induct with
  | case1 => exact absurd h (by simp [chunk3])
  | case2 a b c rest ih =>
    rw [chunk3] at h
    rcases List.mem_cons.mp h with h1 | h2
    · rw [h1]; simp
    · exact ih h2
  | case3 rest h1 h2 =>
    match rest, h1, h2 with
    | [x], _, _ => rcases List.mem_singleton.mp h with h3; rw [h3]; simp
    | [x, y], _, _ => rcases List.mem_singleton.mp h with h3; rw [h3]; simp
    | [], h1, _ => exact absurd rfl h1
    | a :: b :: c :: r, _, h2 => exact absurd rfl (h2 a b c r)

theorem chunk3_init (l : List Nat) (i : Nat) (h : i + 1 < (chunk3 l).length) :
    ((chunk3 l).getD i []).length = 3 := by
  induction l using chunk3.induct generalizing i with
  | case1 => simp [chunk3] at h
  | case2 a b c rest ih =>
    cases i with
    | zero => rfl
    | succ j =>
      rw [chunk3] at h ⊢
      simp only [List.length_cons] at h
      simpa using ih j (by omega)
  | case3 rest h1 h2 =>
    match rest, h1, h2 with
    | [x], _, _ => simp [chunk3] at h
    | [x, y], _, _ => simp [chunk3] at h
    | [], h1, _ => exact absurd rfl h1
    | a :: b :: c :: r, _, h2 => exact absurd rfl (h2 a b c r)

theorem chunk3_full (l : List Nat) (hm : l.length % 3 = 0) :
    ∀ g ∈ chunk3 l, g.length = 3 := by
  induction l using chunk3.induct with
  | case1 => simp [chunk3]
  | case2 a b c rest ih =>
    intro g hg
    rw [chunk3] at hg
    rcases List.mem_cons.mp hg with h1 | h2
    · rw [h1]; rfl
    · exact ih (by simp at hm; omega) g h2
  | case3 rest h1 h2 =>
    match rest, h1, h2 with
    | [x], _, _ => simp at hm
    | [x, y], _, _ => simp at hm
    | [], h1, _ => exact absurd rfl h1
    | a :: b :: c :: r, _, h2 => exact absurd rfl (h2 a b c r)

theorem read_submesh_ok_inv (buf : List Nat) (p0 : Nat) (d : SubmeshData) (pf : Nat)
    (h : read_submesh buf p0 = Except.ok (d, pf)) :
    ∃ nameLen p1 mid p15 mats p16 mt p19,
      readU32 buf p0 = Except.ok (nameLen, p1) ∧
      read_submesh_mid buf (readStr buf p1 nameLen).2 = Except.ok (mid, p15) ∧
      readMaterials buf mid.material_count p15 = Except.ok (mats, p16) ∧
      read_submesh_tail buf p16 = Except.ok (mt, p19) ∧
      d = { submesh_name := submesh_name_of nameLen (readStr buf p1 nameLen).1,
            vertices := mid.vertices, face_indices := chunk3 mid.faceRaw,
            uv_flag := mid.uv_flag, uvs := mid.uvs, normal_flag := mid.normal_flag,
            normals := mid.normals, extra_flag := mid.extra_flag,
            unknown_int3 := mid.unknown_int3, materials := mats,
            matids := mt.1, unknown_tail := mt.2 } ∧ pf = p19 := by
  unfold read_submesh at h
  rw [andThen_ok_iff] at h
  obtain ⟨nameLen, p1, h1, h⟩ := h
  rw [andThen_ok_iff] at h
  obtain ⟨mid, p15, h2, h⟩ := h
  rw [andThen_ok_iff] at h
  obtain ⟨mats, p16, h3, h⟩ := h
  rw [andThen_ok_iff] at h
  obtain ⟨mt, p19, h4, h⟩ := h
  injection h with h5
  injection h5 with hd hp
  exact ⟨nameLen, p1, mid, p15, mats, p16, mt, p19, h1, h2, h3, h4, hd.symm, hp.symm⟩

/-- C1, counterexample.  The submesh record c1buf declares
face_index_count = 7 with indices 10..16.  The claim asserts the decoder
yields exactly 2 face triples and no face with fewer than 3 indices.  The
source (skin_imp.py line 173) instead yields 3 groups, the last being the
kept single-index group with index 16. -/
theorem c1_counterexample :
    Except.map (fun r => r.1.face_indices) (read_submesh c1buf 0)
      = Except.ok [[10, 11, 12], [13, 14, 15], [16]]
    ∧ [[10, 11, 12], [13, 14, 15], [16]].length ≠ 2
    ∧ [16] ∈ [[10, 11, 12], [13, 14, 15], [16]]
    ∧ [16].length < 3 := by decide

/-- C1, amended.  For every successfully decoded submesh, the face list is
the in-order grouping of the flat index list into chunks of three: every
group has between 1 and 3 indices, every group except possibly the last
has exactly 3, the group count is ceil(count/3) (not floor), and when the
index count is a multiple of three every group is a triple.  The trailing
1- or 2-index group of a non-multiple-of-3 count is KEPT as a short face,
not discarded. -/
theorem c1_trailing_group_kept :
    ∀ buf p0 d pf, read_submesh buf p0 = Except.ok (d, pf) →
      (∀ g ∈ d.face_indices, 0 < g.length ∧ g.length ≤ 3) ∧
      (∀ i, i + 1 < d.face_indices.length → (d.face_indices.getD i []).length = 3) ∧
      d.face_indices.length = (d.face_indices.flatten.length + 2) / 3 ∧
      (d.face_indices.flatten.length % 3 = 0 → ∀ g ∈ d.face_indices, g.length = 3) := by
  intro buf p0 d pf h
  obtain ⟨nameLen, p1, mid, p15, mats, p16, mt, p19, _, _, _, _, hd, _⟩ :=
    read_submesh_ok_inv buf p0 d pf h
  subst hd
  simp only [chunk3_join]
  exact ⟨fun g hg => chunk3_mem mid.faceRaw g hg,
         fun i hi => chunk3_init mid.faceRaw i hi,
         chunk3_length mid.faceRaw,
         fun hm g hg => chunk3_full mid.faceRaw hm g hg⟩

/-- C1, witness for the amended theorem at the concrete record c1buf. -/
theorem c1_trailing_group_kept_witness :
    read_submesh c1buf 0 = Except.ok (c1SubData, 79)
    ∧ c1SubData.face_indices.length = (c1SubData.face_indices.flatten.length + 2) / 3 :=
  ⟨by decide, (c1_trailing_group_kept c1buf 0 c1SubData 79 (by decide)).2.2.1⟩

/-- C5, counterexample.  In c5buf the submesh has 7 flat face indices
(2 whole triples, 1 kept partial group, hence 2 decoded face triples) and
3 matid entries over 2 materials.  The claim asserts per-face assignment
happens if and only if matid count equals the number of decoded face
triples, so here (3 vs 2) it must be skipped, leaving every polygon at
material index 0.  The source compares against the number of face GROUPS
including the kept partial one (skin_imp.py lines 244-249), so it assigns
1, 1, 0. -/
theorem c5_counterexample :
    Except.map (fun r => (build_submesh r.1).poly_material_index) (read_submesh c5buf 0)
      = Except.ok [1, 1, 0]
    ∧ Except.map (fun r => r.1.matids.length) (read_submesh c5buf 0) = Except.ok 3
    ∧ Except.map (fun r => (r.1.face_indices.filter fun g => g.length == 3).length)
        (read_submesh c5buf 0) = Except.ok 2
    ∧ [1, 1, 0] ≠ List.replicate 3 0 := by decide

/-- C5, amended.  Per-face material assignment is applied if and only if the
matid list is nonempty and its length equals the length of the decoded
face list (face GROUPS, including a kept trailing partial group — not the
number of whole triples).  When applied, face i receives matid i whenever
that id is below the number of materials and keeps the default index 0
otherwise (skipped, no error); when skipped entirely, every face keeps
index 0.  Decoding never fails because of any of these comparisons. -/
theorem c5_matid_assignment :
    ∀ d : SubmeshData,
      (build_submesh d).poly_material_index.length = d.face_indices.length ∧
      ((d.matids = [] ∨ d.matids.length ≠ d.face_indices.length) →
        (build_submesh d).poly_material_index
          = List.replicate d.face_indices.length 0) ∧
      (d.matids ≠ [] → d.matids.length = d.face_indices.length →
        ∀ i, i < d.face_indices.length →
          (build_submesh d).poly_material_index.getD i 0 =
            if d.matids.getD i 0 < d.materials.length then d.matids.getD i 0 else 0) := by
  intro d
  by_cases hc : d.matids ≠ [] ∧ d.matids.length = d.face_indices.length
  · refine ⟨?_, ?_, ?_⟩
    · simp [build_submesh, hc]
    · intro hmis
      rcases hmis with h1 | h2
      · exact absurd h1 hc.1
      · exact absurd hc.2 h2
    · intro _ _ i hi
      simp only [build_submesh, if_pos hc]
      rw [List.getD_eq_getElem?_getD, List.getElem?_map, List.getElem?_range hi]
      simp
  · refine ⟨?_, ?_, ?_⟩
    · simp [build_submesh, hc]
    · intro _; simp [build_submesh, hc]
    · intro h1 h2
      exact absurd ⟨h1, h2⟩ hc

/-- C5, witness for the amended theorem: an applied case (2 materials,
matids 1 and 0 over 2 face groups) and a skipped mismatch case. -/
theorem c5_matid_assignment_witness :
    (build_submesh c5AppliedData).poly_material_index.getD 0 0
      = (if c5AppliedData.matids.getD 0 0 < c5AppliedData.materials.length
          then c5AppliedData.matids.getD 0 0 else 0)
    ∧ (build_submesh c5SkippedData).poly_material_index = List.replicate 2 0 :=
  ⟨(c5_matid_assignment c5AppliedData).2.2 (by decide) (by decide) 0 (by decide),
   (c5_matid_assignment c5SkippedData).2.1 (Or.inr (by decide))⟩

/-- C6, counterexample.  For the minimal submesh (no vertices, no uvs) the
uv and vertex counts are equal (both 0), so the claimed
attached-iff-counts-equal rule demands an attached UV layer; the source
condition (skin_imp.py line 219) additionally requires uvs to be nonempty
and attaches none. -/
theorem c6_counterexample :
    Except.map (fun r => (build_submesh r.1).uv_layer) (read_submesh minimalSub 0)
      = Except.ok none
    ∧ Except.map (fun r => r.1.uvs.length) (read_submesh minimalSub 0) = Except.ok 0
    ∧ Except.map (fun r => r.1.vertices.length) (read_submesh minimalSub 0)
      = Except.ok 0 := by decide

/-- C6, amended.  A per-vertex UV layer is attached if and only if the uv
list is nonempty AND its length equals the vertex count; custom normals
follow the same rule; a mismatch skips only that layer: the mesh
vertices, faces and material slots are built regardless, and the submesh
decode itself is unaffected.  (With vertex_count 4 and uv_count 3 the
condition is false, so no UV layer is attached, as the claim expects;
the claims sole error is dropping the nonemptiness conjunct.) -/
theorem c6_uv_normal_application :
    ∀ d : SubmeshData,
      ((build_submesh d).uv_layer.isSome ↔
        d.uvs ≠ [] ∧ d.uvs.length = d.vertices.length) ∧
      ((build_submesh d).custom_normals.isSome ↔
        d.normals ≠ [] ∧ d.normals.length = d.vertices.length) ∧
      (build_submesh d).mesh_vertices = d.vertices ∧
      (build_submesh d).mesh_faces = d.face_indices ∧
      (build_submesh d).material_names.length = d.materials.length := by
  intro d
  refine ⟨?_, ?_, rfl, rfl, by simp [build_submesh]⟩
  · by_cases hc : d.uvs ≠ [] ∧ d.uvs.length = d.vertices.length
    · simp [build_submesh, hc]
    · simp only [build_submesh, if_neg hc]
      simpa using hc
  · by_cases hc : d.normals ≠ [] ∧ d.normals.length = d.vertices.length
    · simp [build_submesh, hc]
    · simp only [build_submesh, if_neg hc]
      simpa using hc

/-- C8.  read_material consumes its stream in the fixed order
u32 color1, u32 color2, f32 alpha, u32 color3, u32 color4, u8 flag, then
four length-prefixed strings texture1, texture2, texture3, material_name:
on every successful decode each field equals the byte range at the offset
determined solely by the four declared string lengths (no branching on
any other field value), a declared length of zero yields the empty string
without error, and the final position is the start plus 30 fixed bytes
plus the four string lengths (capped at the buffer end, where only the
final material_name read can be short). -/
theorem c8_material_layout :
    ∀ buf p0 m pf, read_material buf p0 = Except.ok (m, pf) →
      m.color1 = unpackLE (byteSlice buf p0 4) ∧
      m.color2 = unpackLE (byteSlice buf (p0 + 4) 4) ∧
      m.alpha = unpackLE (byteSlice buf (p0 + 8) 4) ∧
      m.color3 = unpackLE (byteSlice buf (p0 + 12) 4) ∧
      m.color4 = unpackLE (byteSlice buf (p0 + 16) 4) ∧
      m.flag1 = unpackLE (byteSlice buf (p0 + 20) 1) ∧
      m.texture1_name = byteSlice buf (p0 + 25) (texLen1 buf p0) ∧
      m.texture2_name = byteSlice buf (p0 + 29 + texLen1 buf p0) (texLen2 buf p0) ∧
      m.texture3_name
        = byteSlice buf (p0 + 33 + texLen1 buf p0 + texLen2 buf p0) (texLen3 buf p0) ∧
      m.material_name
        = byteSlice buf (p0 + 37 + texLen1 buf p0 + texLen2 buf p0 + texLen3 buf p0)
            (texLen4 buf p0) ∧
      (texLen1 buf p0 = 0 → m.texture1_name = []) ∧
      (texLen2 buf p0 = 0 → m.texture2_name = []) ∧
      (texLen3 buf p0 = 0 → m.texture3_name = []) ∧
      (texLen4 buf p0 = 0 → m.material_name = []) ∧
      pf = min (p0 + 37 + texLen1 buf p0 + texLen2 buf p0 + texLen3 buf p0
                  + texLen4 buf p0) buf.length := by
  intro buf p0 m pf h
  unfold read_material at h
  rw [andThen_ok_iff] at h
  obtain ⟨bs8, p1, h1, h⟩ := h
  obtain ⟨e1a, e1b, e1c, e1d⟩ := readExact_ok_inv buf p0 8 bs8 p1 h1
  subst e1a; subst e1c
  rw [andThen_ok_iff] at h
  obtain ⟨bsA, p2, h2, h⟩ := h
  obtain ⟨e2a, e2b, e2c, e2d⟩ := readExact_ok_inv buf (p0 + 8) 4 bsA p2 h2
  subst e2a; subst e2c
  rw [andThen_ok_iff] at h
  obtain ⟨bs8b, p3, h3, h⟩ := h
  obtain ⟨e3a, e3b, e3c, e3d⟩ := readExact_ok_inv buf (p0 + 8 + 4) 8 bs8b p3 h3
  subst e3a; subst e3c
  rw [andThen_ok_iff] at h
  obtain ⟨bsF, p4, h4, h⟩ := h
  obtain ⟨e4a, e4b, e4c, e4d⟩ := readExact_ok_inv buf (p0 + 8 + 4 + 8) 1 bsF p4 h4
  subst e4a; subst e4c
  rw [andThen_ok_iff] at h
  obtain ⟨len1, p5, h5, h⟩ := h
  rw [show p0 + 8 + 4 + 8 + 1 = p0 + 21 by omega] at h5
  obtain ⟨f1a, f1b, f1c⟩ := readU32_ok_inv buf (p0 + 21) len1 p5 h5
  have hl1 : len1 = texLen1 buf p0 := f1a
  have hp5 : p5 = p0 + 25 := by omega
  by_cases hs1 : (byteSlice buf p5 len1).length = len1
  case neg =>
    rw [readU32_atEnd buf _ (readStr_short_atEnd buf p5 len1 hs1), andThen_errC] at h
    exact absurd h (by simp)
  rw [readStr_full_pos buf p5 len1 hs1] at h
  rw [andThen_ok_iff] at h
  obtain ⟨len2, p7, h6, h⟩ := h
  rw [show p5 + len1 = p0 + 25 + texLen1 buf p0 by rw [hp5, hl1]] at h6
  obtain ⟨f2a, f2b, f2c⟩ := readU32_ok_inv buf (p0 + 25 + texLen1 buf p0) len2 p7 h6
  have hl2 : len2 = texLen2 buf p0 := f2a
  have hp7 : p7 = p0 + 29 + texLen1 buf p0 := by omega
  by_cases hs2 : (byteSlice buf p7 len2).length = len2
  case neg =>
    rw [readU32_atEnd buf _ (readStr_short_atEnd buf p7 len2 hs2), andThen_errC] at h
    exact absurd h (by simp)
  rw [readStr_full_pos buf p7 len2 hs2] at h
  rw [andThen_ok_iff] at h
  obtain ⟨len3, p9, h7, h⟩ := h
  rw [show p7 + len2 = p0 + 29 + texLen1 buf p0 + texLen2 buf p0 by rw [hp7, hl2]] at h7
  obtain ⟨f3a, f3b, f3c⟩ :=
    readU32_ok_inv buf (p0 + 29 + texLen1 buf p0 + texLen2 buf p0) len3 p9 h7
  have hl3 : len3 = texLen3 buf p0 := f3a
  have hp9 : p9 = p0 + 33 + texLen1 buf p0 + texLen2 buf p0 := by omega
  by_cases hs3 : (byteSlice buf p9 len3).length = len3
  case neg =>
    rw [readU32_atEnd buf _ (readStr_short_atEnd buf p9 len3 hs3), andThen_errC] at h
    exact absurd h (by simp)
  rw [readStr_full_pos buf p9 len3 hs3] at h
  rw [andThen_ok_iff] at h
  obtain ⟨len4, p11, h8, h⟩ := h
  rw [show p9 + len3 = p0 + 33 + texLen1 buf p0 + texLen2 buf p0 + texLen3 buf p0 by
    rw [hp9, hl3]] at h8
  obtain ⟨f4a, f4b, f4c⟩ :=
    readU32_ok_inv buf (p0 + 33 + texLen1 buf p0 + texLen2 buf p0 + texLen3 buf p0)
      len4 p11 h8
  have hl4 : len4 = texLen4 buf p0 := f4a
  have hp11 : p11 = p0 + 37 + texLen1 buf p0 + texLen2 buf p0 + texLen3 buf p0 := by
    omega
  injection h with h9
  injection h9 with hm hpf
  subst hm
  have hlen := byteSlice_length buf p11 len4
  refine ⟨?_, ?_, rfl, ?_, ?_, rfl, ?_, ?_, ?_, ?_, ?_, ?_, ?_, ?_, ?_⟩
  · rw [byteSlice_take buf p0 8 4 (by omega)]
  · rw [byteSlice_drop buf p0 8 4]
  · rw [byteSlice_take buf (p0 + 8 + 4) 8 4 (by omega), show p0 + 8 + 4 = p0 + 12 by omega]
  · rw [byteSlice_drop buf (p0 + 8 + 4) 8 4, show p0 + 8 + 4 + 4 = p0 + 16 by omega]
  · rw [readStr_val buf p5 len1, hp5, hl1]
  · rw [readStr_val buf p7 len2, hp7, hl2]
  · rw [readStr_val buf p9 len3, hp9, hl3]
  · rw [readStr_val buf p11 len4, hp11, hl4]
  · intro hz
    rw [readStr_val buf p5 len1, hl1.trans hz, byteSlice_zero]
  · intro hz
    rw [readStr_val buf p7 len2, hl2.trans hz, byteSlice_zero]
  · intro hz
    rw [readStr_val buf p9 len3, hl3.trans hz, byteSlice_zero]
  · intro hz
    rw [readStr_val buf p11 len4, hl4.trans hz, byteSlice_zero]
  · rw [← hpf]
    simp only [readStr]
    omega

/-- C8, witness at the all-zero material record. -/
theorem c8_material_layout_witness :
    read_material matZeros 0 = Except.ok (zeroMat, 37)
    ∧ zeroMat.texture1_name = byteSlice matZeros 25 (texLen1 matZeros 0)
    ∧ zeroMat.material_name = [] :=
  ⟨by decide,
   (c8_material_layout matZeros 0 zeroMat 37 (by decide)).2.2.2.2.2.2.1,
   (c8_material_layout matZeros 0 zeroMat 37 (by decide)).2.2.2.2.2.2.2.2.2.2.2.2.2.1
     (by decide)⟩

set_option maxHeartbeats 1600000 in
theorem read_material_279_name_inv (buf : List Nat) (p0 : Nat) (m : Material) (pf : Nat)
    (h : read_material_279 buf p0 = Except.ok (m, pf)) :
    m.material_name
      = mat279_name_of (texLen4 buf p0)
          (readStr buf (p0 + 37 + texLen1 buf p0 + texLen2 buf p0 + texLen3 buf p0)
            (texLen4 buf p0)).1 := by
  unfold read_material_279 at h
  rw [andThen_ok_iff] at h
  obtain ⟨bs8, p1, h1, h⟩ := h
  obtain ⟨e1a, e1b, e1c, e1d⟩ := readExact_ok_inv buf p0 8 bs8 p1 h1
  subst e1a; subst e1c
  rw [andThen_ok_iff] at h
  obtain ⟨bsA, p2, h2, h⟩ := h
  obtain ⟨e2a, e2b, e2c, e2d⟩ := readExact_ok_inv buf (p0 + 8) 4 bsA p2 h2
  subst e2a; subst e2c
  rw [andThen_ok_iff] at h
  obtain ⟨bs8b, p3, h3, h⟩ := h
  obtain ⟨e3a, e3b, e3c, e3d⟩ := readExact_ok_inv buf (p0 + 8 + 4) 8 bs8b p3 h3
  subst e3a; subst e3c
  rw [andThen_ok_iff] at h
  obtain ⟨bsF, p4, h4, h⟩ := h
  obtain ⟨e4a, e4b, e4c, e4d⟩ := readExact_ok_inv buf (p0 + 8 + 4 + 8) 1 bsF p4 h4
  subst e4a; subst e4c
  rw [andThen_ok_iff] at h
  obtain ⟨len1, p5, h5, h⟩ := h
  rw [show p0 + 8 + 4 + 8 + 1 = p0 + 21 by omega] at h5
  obtain ⟨f1a, f1b, f1c⟩ := readU32_ok_inv buf (p0 + 21) len1 p5 h5
  have hl1 : len1 = texLen1 buf p0 := f1a
  have hp5 : p5 = p0 + 25 := by omega
  by_cases hs1 : (byteSlice buf p5 len1).length = len1
  case neg =>
    rw [readU32_atEnd buf _ (readStr_short_atEnd buf p5 len1 hs1), andThen_errC] at h
    exact absurd h (by simp)
  rw [readStr_full_pos buf p5 len1 hs1] at h
  rw [andThen_ok_iff] at h
  obtain ⟨len2, p7, h6, h⟩ := h
  rw [show p5 + len1 = p0 + 25 + texLen1 buf p0 by rw [hp5, hl1]] at h6
  obtain ⟨f2a, f2b, f2c⟩ := readU32_ok_inv buf (p0 + 25 + texLen1 buf p0) len2 p7 h6
  have hl2 : len2 = texLen2 buf p0 := f2a
  have hp7 : p7 = p0 + 29 + texLen1 buf p0 := by omega
  by_cases hs2 : (byteSlice buf p7 len2).length = len2
  case neg =>
    rw [readU32_atEnd buf _ (readStr_short_atEnd buf p7 len2 hs2), andThen_errC] at h
    exact absurd h (by simp)
  rw [readStr_full_pos buf p7 len2 hs2] at h
  rw [andThen_ok_iff] at h
  obtain ⟨len3, p9, h7, h⟩ := h
  rw [show p7 + len2 = p0 + 29 + texLen1 buf p0 + texLen2 buf p0 by rw [hp7, hl2]] at h7
  obtain ⟨f3a, f3b, f3c⟩ :=
    readU32_ok_inv buf (p0 + 29 + texLen1 buf p0 + texLen2 buf p0) len3 p9 h7
  have hl3 : len3 = texLen3 buf p0 := f3a
  have hp9 : p9 = p0 + 33 + texLen1 buf p0 + texLen2 buf p0 := by omega
  by_cases hs3 : (byteSlice buf p9 len3).length = len3
  case neg =>
    rw [readU32_atEnd buf _ (readStr_short_atEnd buf p9 len3 hs3), andThen_errC] at h
    exact absurd h (by simp)
  rw [readStr_full_pos buf p9 len3 hs3] at h
  rw [andThen_ok_iff] at h
  obtain ⟨len4, p11, h8, h⟩ := h
  rw [show p9 + len3 = p0 + 33 + texLen1 buf p0 + texLen2 buf p0 + texLen3 buf p0 by
    rw [hp9, hl3]] at h8
  obtain ⟨f4a, f4b, f4c⟩ :=
    readU32_ok_inv buf (p0 + 33 + texLen1 buf p0 + texLen2 buf p0 + texLen3 buf p0)
      len4 p11 h8
  have hl4 : len4 = texLen4 buf p0 := f4a
  have hp11 : p11 = p0 + 37 + texLen1 buf p0 + texLen2 buf p0 + texLen3 buf p0 := by
    omega
  injection h with h9
  injection h9 with hm hpf
  subst hm
  show mat279_name_of len4 (readStr buf p11 len4).1
      = mat279_name_of (texLen4 buf p0)
          (readStr buf (p0 + 37 + texLen1 buf p0 + texLen2 buf p0 + texLen3 buf p0)
            (texLen4 buf p0)).1
  rw [hp11, hl4]

/-- C9.  Empty-name defaults: a submesh whose declared name length is 0
decodes to the literal name Submesh; a material whose decoded
material_name is empty is created in Blender as ImportedMaterial
(skin_imp.py line 82); and in the 2.79 variant a declared material-name
length of 0 already yields ImportedMaterial at decode time
(skin_imp_2,79b.py line 55). -/
theorem c9_default_names :
    (∀ buf p d pf, read_submesh buf p = Except.ok (d, pf) →
      unpackLE (byteSlice buf p 4) = 0 → d.submesh_name = strBytes "Submesh")
    ∧ (∀ m : Material, m.material_name = [] →
      create_blender_material_name m = strBytes "ImportedMaterial")
    ∧ (∀ buf p0 m pf, read_material_279 buf p0 = Except.ok (m, pf) →
      texLen4 buf p0 = 0 → m.material_name = strBytes "ImportedMaterial") := by
  refine ⟨?_, ?_, ?_⟩
  · intro buf p d pf h hz
    obtain ⟨nameLen, p1, mid, p15, mats, p16, mt, p19, h1, _, _, _, hd, _⟩ :=
      read_submesh_ok_inv buf p d pf h
    obtain ⟨f1, _, _⟩ := readU32_ok_inv buf p nameLen p1 h1
    subst hd
    show submesh_name_of nameLen (readStr buf p1 nameLen).1 = strBytes "Submesh"
    rw [f1, hz]
    rfl
  · intro m hm
    simp [create_blender_material_name, hm]
  · intro buf p0 m pf h hz
    rw [read_material_279_name_inv buf p0 m pf h, hz]
    rfl

/-- C9, witness: the minimal zero-byte submesh and the all-zero material
record under each variant. -/
theorem c9_default_names_witness :
    read_submesh minimalSub 0 = Except.ok (minimalSubData, 51)
    ∧ minimalSubData.submesh_name = strBytes "Submesh"
    ∧ create_blender_material_name zeroMat = strBytes "ImportedMaterial"
    ∧ read_material_279 matZeros 0 = Except.ok (impMat, 37)
    ∧ impMat.material_name = strBytes "ImportedMaterial" :=
  ⟨by decide,
   c9_default_names.1 minimalSub 0 minimalSubData 51 (by decide) (by decide),
   c9_default_names.2.1 zeroMat (by decide),
   by decide,
   c9_default_names.2.2 matZeros 0 impMat 37 (by decide) (by decide)⟩

theorem read_material_atEnd (buf : List Nat) (p : Nat) (he : atEnd buf p) :
    read_material buf p = Except.error DecodeError.TruncatedInput := by
  unfold read_material
  rw [readExact_atEnd buf p 8 he (by omega), andThen_errC]

theorem read_submesh_mid_atEnd (buf : List Nat) (p : Nat) (he : atEnd buf p) :
    read_submesh_mid buf p = Except.error DecodeError.TruncatedInput := by
  unfold read_submesh_mid
  rw [readU32_atEnd buf p he, andThen_errC]

theorem read_submesh_tail_atEnd (buf : List Nat) (p : Nat) (he : atEnd buf p) :
    read_submesh_tail buf p = Except.error DecodeError.TruncatedInput := by
  unfold read_submesh_tail
  rw [readU32_atEnd buf p he, andThen_errC]

theorem readMaterials_atEnd (buf : List Nat) (p : Nat) (he : atEnd buf p) (k : Nat) :
    readMaterials buf (Nat.succ k) p = Except.error DecodeError.TruncatedInput := by
  unfold readMaterials
  rw [read_material_atEnd buf p he, andThen_errC]

theorem read_material_eq (buf : List Nat) (p0 : Nat) :
    read_material buf p0 = read_material_strict buf p0
    ∨ ∃ m q, read_material buf p0 = Except.ok (m, q) ∧ atEnd buf q
        ∧ read_material_strict buf p0 = Except.error DecodeError.TruncatedInput := by
  unfold read_material read_material_strict
  cases h1 : readExact buf p0 8 with
  | error e => left; simp only [h1, andThen_errC]
  | ok r1 =>
  obtain ⟨bs8, p1⟩ := r1
  simp only [h1, andThen_okC]
  cases h2 : readExact buf p1 4 with
  | error e => left; simp only [h2, andThen_errC]
  | ok r2 =>
  obtain ⟨bsA, p2⟩ := r2
  simp only [h2, andThen_okC]
  cases h3 : readExact buf p2 8 with
  | error e => left; simp only [h3, andThen_errC]
  | ok r3 =>
  obtain ⟨bs8b, p3⟩ := r3
  simp only [h3, andThen_okC]
  cases h4 : readExact buf p3 1 with
  | error e => left; simp only [h4, andThen_errC]
  | ok r4 =>
  obtain ⟨bsF, p4⟩ := r4
  simp only [h4, andThen_okC]
  cases h5 : readU32 buf p4 with
  | error e => left; simp only [h5, andThen_errC]
  | ok r5 =>
  obtain ⟨len1, p5⟩ := r5
  simp only [h5, andThen_okC]
  by_cases hs1 : (byteSlice buf p5 len1).length = len1
  case neg =>
    left
    rw [readU32_atEnd buf _ (readStr_short_atEnd buf p5 len1 hs1), andThen_errC]
    rw [readExact_short buf p5 len1 hs1, andThen_errC]
  simp only [readStr_full_pos buf p5 len1 hs1, readExact_full buf p5 len1 hs1, andThen_okC]
  cases h6 : readU32 buf (p5 + len1) with
  | error e => left; simp only [h6, andThen_errC]
  | ok r6 =>
  obtain ⟨len2, p7⟩ := r6
  simp only [h6, andThen_okC]
  by_cases hs2 : (byteSlice buf p7 len2).length = len2
  case neg =>
    left
    rw [readU32_atEnd buf _ (readStr_short_atEnd buf p7 len2 hs2), andThen_errC]
    rw [readExact_short buf p7 len2 hs2, andThen_errC]
  simp only [readStr_full_pos buf p7 len2 hs2, readExact_full buf p7 len2 hs2, andThen_okC]
  cases h7 : readU32 buf (p7 + len2) with
  | error e => left; simp only [h7, andThen_errC]
  | ok r7 =>
  obtain ⟨len3, p9⟩ := r7
  simp only [h7, andThen_okC]
  by_cases hs3 : (byteSlice buf p9 len3).length = len3
  case neg =>
    left
    rw [readU32_atEnd buf _ (readStr_short_atEnd buf p9 len3 hs3), andThen_errC]
    rw [readExact_short buf p9 len3 hs3, andThen_errC]
  simp only [readStr_full_pos buf p9 len3 hs3, readExact_full buf p9 len3 hs3, andThen_okC]
  cases h8 : readU32 buf (p9 + len3) with
  | error e => left; simp only [h8, andThen_errC]
  | ok r8 =>
  obtain ⟨len4, p11⟩ := r8
  simp only [h8, andThen_okC]
  by_cases hs4 : (byteSlice buf p11 len4).length = len4
  case neg =>
    right
    refine ⟨_, (readStr buf p11 len4).2, rfl, readStr_short_atEnd buf p11 len4 hs4, ?_⟩
    rw [readExact_short buf p11 len4 hs4, andThen_errC]
  left
  simp only [readStr_full_pos buf p11 len4 hs4, readExact_full buf p11 len4 hs4,
    andThen_okC, readStr_val]

theorem readMaterials_eq (buf : List Nat) :
    ∀ n p, readMaterials buf n p = readMaterialsStrict buf n p
    ∨ ∃ ms q, readMaterials buf n p = Except.ok (ms, q) ∧ atEnd buf q
        ∧ readMaterialsStrict buf n p = Except.error DecodeError.TruncatedInput := by
  intro n
  induction n with
  | zero => intro p; left; rfl
  | succ k ih =>
    intro p
    unfold readMaterials readMaterialsStrict
    rcases read_material_eq buf p with heq | ⟨m, q, hlz, hq, hst⟩
    · rw [heq]
      cases hm : read_material_strict buf p with
      | error e => left; simp only [andThen_errC]
      | ok r =>
        obtain ⟨m, p1⟩ := r
        simp only [andThen_okC]
        rcases ih p1 with heq2 | ⟨ms, q, hlz2, hq2, hst2⟩
        · rw [heq2]
          cases hms : readMaterialsStrict buf k p1 with
          | error e => left; simp only [andThen_errC]
          | ok r2 => obtain ⟨ms, p2⟩ := r2; left; simp only [andThen_okC]
        · right
          refine ⟨m :: ms, q, ?_, hq2, ?_⟩
          · rw [hlz2, andThen_okC]
          · rw [hst2, andThen_errC]
    · rw [hlz, hst]
      simp only [andThen_okC, andThen_errC]
      cases k with
      | zero => right; exact ⟨[m], q, rfl, hq, by trivial⟩
      | succ j =>
        left
        rw [readMaterials_atEnd buf q hq j, andThen_errC]

theorem read_submesh_eq (buf : List Nat) (p0 : Nat) :
    read_submesh buf p0 = read_submesh_strict buf p0 := by
  unfold read_submesh read_submesh_strict
  cases h1 : readU32 buf p0 with
  | error e => simp only [h1, andThen_errC]
  | ok r1 =>
  obtain ⟨nameLen, p1⟩ := r1
  simp only [h1, andThen_okC]
  by_cases hs : (byteSlice buf p1 nameLen).length = nameLen
  case neg =>
    rw [read_submesh_mid_atEnd buf _ (readStr_short_atEnd buf p1 nameLen hs), andThen_errC]
    rw [readExact_short buf p1 nameLen hs, andThen_errC]
  simp only [readStr_full_pos buf p1 nameLen hs, readExact_full buf p1 nameLen hs,
    andThen_okC]
  cases hm : read_submesh_mid buf (p1 + nameLen) with
  | error e => simp only [hm, andThen_errC]
  | ok rm =>
  obtain ⟨mid, p15⟩ := rm
  simp only [hm, andThen_okC]
  rcases readMaterials_eq buf mid.material_count p15 with heq | ⟨ms, q, hlz, hq, hst⟩
  · rw [heq]
    cases hmts : readMaterialsStrict buf mid.material_count p15 with
    | error e => simp only [andThen_errC]
    | ok rms =>
      obtain ⟨mats, p16⟩ := rms
      simp only [andThen_okC]
      cases ht : read_submesh_tail buf p16 with
      | error e => simp only [ht, andThen_errC]
      | ok rt =>
        obtain ⟨mt, p19⟩ := rt
        simp only [ht, andThen_okC, readStr_val]
  · rw [hlz, hst]
    simp only [andThen_okC, andThen_errC]
    rw [read_submesh_tail_atEnd buf q hq, andThen_errC]

theorem readSubmeshObjs_eq (buf : List Nat) :
    ∀ n p, readSubmeshObjs buf n p = readSubmeshObjsStrict buf n p := by
  intro n
  induction n with
  | zero => intro p; rfl
  | succ k ih =>
    intro p
    unfold readSubmeshObjs readSubmeshObjsStrict
    rw [read_submesh_eq buf p]
    cases h : read_submesh_strict buf p with
    | error e => simp only [andThen_errC]
    | ok r =>
      obtain ⟨d, p1⟩ := r
      simp only [andThen_okC, ih p1]

theorem read_file_core_eq (buf : List Nat) :
    read_file_core buf = read_file_core_strict buf := by
  unfold read_file_core read_file_core_strict
  cases h1 : readExact buf 0 1 with
  | error e => simp only [andThen_errC]
  | ok r1 =>
  obtain ⟨hb, p1⟩ := r1
  simp only [andThen_okC]
  cases h2 : readExact buf p1 12 with
  | error e => simp only [andThen_errC]
  | ok r2 =>
  obtain ⟨hw, p2⟩ := r2
  simp only [andThen_okC]
  cases h3 : readU32 buf p2 with
  | error e => simp only [andThen_errC]
  | ok r3 =>
  obtain ⟨n, p3⟩ := r3
  simp only [andThen_okC, readSubmeshObjs_eq buf n p3]

theorem decode_model_eq (buf : List Nat) : decode_model buf = decode_model_strict buf := by
  unfold decode_model decode_model_strict
  rw [read_file_core_eq buf]

/-- C2.  Truncation handling.  First conjunct: in the strict cursor
discipline a length-prefixed string whose declared byte count exceeds the
remaining buffer fails with TruncatedInput at the string read itself
(readExact is the string read of the strict decoder).  Second
conjunct: the source decoder computes exactly the same result as that
strict decoder on every input — in particular a buffer that ends inside
a declared string never yields a decoded result containing a silently
shortened string: the whole decode fails with TruncatedInput (the
struct.error of a later fixed-width read; every string field of every
record is followed by at least one fixed-width read before decode_model
can return). -/
theorem c2_truncated_string_fails :
    ∀ buf p n,
      (0 < n → buf.length < p + n →
        readExact buf p n = Except.error DecodeError.TruncatedInput)
      ∧ decode_model buf = decode_model_strict buf := by
  intro buf p n
  constructor
  · intro hn hlen
    apply readExact_short
    rw [byteSlice_length]
    omega
  · exact decode_model_eq buf

/-- C2, witness: a 3-byte buffer truncates a declared 7-byte string, and
the two decoders agree on the minimal demo file. -/
theorem c2_truncated_string_fails_witness :
    readExact (List.replicate 3 0) 1 7 = Except.error DecodeError.TruncatedInput
    ∧ decode_model (mkDemoFile 0 0 0 0 0 0 0 0 0 0 0 0)
      = decode_model_strict (mkDemoFile 0 0 0 0 0 0 0 0 0 0 0 0) :=
  ⟨(c2_truncated_string_fails (List.replicate 3 0) 1 7).1 (by decide) (by decide),
   (c2_truncated_string_fails (mkDemoFile 0 0 0 0 0 0 0 0 0 0 0 0) 0 0).2⟩

theorem andThen_err_trunc {α β : Type} {x : Except DecodeError (α × Nat)}
    {f : α → Nat → Except DecodeError (β × Nat)}
    (hx : ∀ e, x = Except.error e → e = DecodeError.TruncatedInput)
    (hf : ∀ a p e, f a p = Except.error e → e = DecodeError.TruncatedInput) :
    ∀ e, andThen x f = Except.error e → e = DecodeError.TruncatedInput := by
  intro e h
  rw [andThen_error_iff] at h
  rcases h with h | ⟨a, p, hx2, hf2⟩
  · exact hx e h
  · exact hf a p e hf2

theorem readExact_err (buf : List Nat) (p n : Nat) :
    ∀ e, readExact buf p n = Except.error e → e = DecodeError.TruncatedInput := by
  intro e h
  unfold readExact at h
  split at h
  · exact absurd h (by simp)
  · injection h with h1
    exact h1.symm

theorem readU32_err (buf : List Nat) (p : Nat) :
    ∀ e, readU32 buf p = Except.error e → e = DecodeError.TruncatedInput :=
  andThen_err_trunc (readExact_err buf p 4) (fun _ _ e h => absurd h (by simp))

theorem readU8_err (buf : List Nat) (p : Nat) :
    ∀ e, readU8 buf p = Except.error e → e = DecodeError.TruncatedInput :=
  andThen_err_trunc (readExact_err buf p 1) (fun _ _ e h => absurd h (by simp))

theorem readF32Triples_err (buf : List Nat) (p count : Nat) :
    ∀ e, readF32Triples buf p count = Except.error e → e = DecodeError.TruncatedInput := by
  intro e h
  unfold readF32Triples at h
  split at h
  · exact andThen_err_trunc (readExact_err buf p (count * 12))
      (fun _ _ e2 h2 => absurd h2 (by simp)) e h
  · exact absurd h (by simp)

theorem readF32Pairs_err (buf : List Nat) (p count : Nat) :
    ∀ e, readF32Pairs buf p count = Except.error e → e = DecodeError.TruncatedInput := by
  intro e h
  unfold readF32Pairs at h
  split at h
  · exact andThen_err_trunc (readExact_err buf p (count * 8))
      (fun _ _ e2 h2 => absurd h2 (by simp)) e h
  · exact absurd h (by simp)

theorem readU32Flat_err (buf : List Nat) (p count : Nat) :
    ∀ e, readU32Flat buf p count = Except.error e → e = DecodeError.TruncatedInput := by
  intro e h
  unfold readU32Flat at h
  split at h
  · exact andThen_err_trunc (readExact_err buf p (count * 4))
      (fun _ _ e2 h2 => absurd h2 (by simp)) e h
  · exact absurd h (by simp)

theorem readU16Flat_err (buf : List Nat) (p count : Nat) :
    ∀ e, readU16Flat buf p count = Except.error e → e = DecodeError.TruncatedInput := by
  intro e h
  unfold readU16Flat at h
  split at h
  · exact andThen_err_trunc (readExact_err buf p (count * 2))
      (fun _ _ e2 h2 => absurd h2 (by simp)) e h
  · exact absurd h (by simp)

theorem read_material_err (buf : List Nat) (p0 : Nat) :
    ∀ e, read_material buf p0 = Except.error e → e = DecodeError.TruncatedInput := by
  unfold read_material
  apply andThen_err_trunc (readExact_err buf p0 8); intro bs8 p1
  apply andThen_err_trunc (readExact_err buf p1 4); intro bsA p2
  apply andThen_err_trunc (readExact_err buf p2 8); intro bs8b p3
  apply andThen_err_trunc (readExact_err buf p3 1); intro bsF p4
  apply andThen_err_trunc (readU32_err buf p4); intro len1 p5
  apply andThen_err_trunc (readU32_err buf (readStr buf p5 len1).2); intro len2 p7
  apply andThen_err_trunc (readU32_err buf (readStr buf p7 len2).2); intro len3 p9
  apply andThen_err_trunc (readU32_err buf (readStr buf p9 len3).2); intro len4 p11
  intro e h
  exact absurd h (by simp)

theorem readMaterials_err (buf : List Nat) :
    ∀ n p e, readMaterials buf n p = Except.error e → e = DecodeError.TruncatedInput := by
  intro n
  induction n with
  | zero =>
    intro p e h
    exact absurd h (by simp [readMaterials])
  | succ k ih =>
    intro p
    unfold readMaterials
    apply andThen_err_trunc (read_material_err buf p); intro m p1
    apply andThen_err_trunc (fun e h => ih p1 e h); intro ms p2
    intro e h
    exact absurd h (by simp)

theorem read_submesh_mid_err (buf : List Nat) (p2 : Nat) :
    ∀ e, read_submesh_mid buf p2 = Except.error e → e = DecodeError.TruncatedInput := by
  unfold read_submesh_mid
  apply andThen_err_trunc (readU32_err buf p2); intro vc p3
  apply andThen_err_trunc (readF32Triples_err buf p3 vc); intro verts p4
  apply andThen_err_trunc (readU32_err buf p4); intro fc p5
  apply andThen_err_trunc (readU32Flat_err buf p5 fc); intro faceRaw p6
  apply andThen_err_trunc (readU8_err buf p6); intro uvF p7
  apply andThen_err_trunc (readU32_err buf p7); intro uc p8
  apply andThen_err_trunc (readF32Pairs_err buf p8 uc); intro uvsV p9
  apply andThen_err_trunc (readU8_err buf p9); intro nF p10
  apply andThen_err_trunc (readU32_err buf p10); intro nc p11
  apply andThen_err_trunc (readF32Triples_err buf p11 nc); intro nsV p12
  apply andThen_err_trunc (readU8_err buf p12); intro eF p13
  apply andThen_err_trunc (readU32_err buf p13); intro u3 p14
  apply andThen_err_trunc (readU32_err buf p14); intro mc p15
  intro e h
  exact absurd h (by simp)

theorem read_submesh_tail_err (buf : List Nat) (p16 : Nat) :
    ∀ e, read_submesh_tail buf p16 = Except.error e → e = DecodeError.TruncatedInput := by
  unfold read_submesh_tail
  apply andThen_err_trunc (readU32_err buf p16); intro mic p17
  apply andThen_err_trunc (readU16Flat_err buf p17 mic); intro mids p18
  apply andThen_err_trunc (readExact_err buf p18 16); intro tailBs p19
  intro e h
  exact absurd h (by simp)

theorem read_submesh_err (buf : List Nat) (p0 : Nat) :
    ∀ e, read_submesh buf p0 = Except.error e → e = DecodeError.TruncatedInput := by
  unfold read_submesh
  apply andThen_err_trunc (readU32_err buf p0); intro nameLen p1
  apply andThen_err_trunc (read_submesh_mid_err buf (readStr buf p1 nameLen).2)
  intro mid p15
  apply andThen_err_trunc (fun e h => readMaterials_err buf mid.material_count p15 e h)
  intro mats p16
  apply andThen_err_trunc (read_submesh_tail_err buf p16); intro mt p19
  intro e h
  exact absurd h (by simp)

theorem readSubmeshObjs_err (buf : List Nat) :
    ∀ n p e, readSubmeshObjs buf n p = Except.error e → e = DecodeError.TruncatedInput := by
  intro n
  induction n with
  | zero =>
    intro p e h
    exact absurd h (by simp [readSubmeshObjs])
  | succ k ih =>
    intro p
    unfold readSubmeshObjs
    apply andThen_err_trunc (read_submesh_err buf p); intro d p1
    apply andThen_err_trunc (fun e h => ih p1 e h); intro rest p2
    intro e h
    exact absurd h (by simp)

theorem read_file_core_err (buf : List Nat) :
    ∀ e, read_file_core buf = Except.error e → e = DecodeError.TruncatedInput := by
  unfold read_file_core
  apply andThen_err_trunc (readExact_err buf 0 1); intro hb p1
  apply andThen_err_trunc (readExact_err buf p1 12); intro hw p2
  apply andThen_err_trunc (readU32_err buf p2); intro n p3
  intro e h
  exact readSubmeshObjs_err buf n p3 e h

/-- C4, counterexample.  The file c4buf declares submesh_count 1 and then
a vertex_count of 4294967295 with zero bytes remaining — a count no
buffer suffix could possibly satisfy.  The claim asserts decode_model
fails with the distinct error InvalidCount; the source attempts the read
(f.read returns what is left) and the struct unpack of the vertex block
fails with the one and only truncation error, not InvalidCount. -/
theorem c4_counterexample :
    decode_model c4buf = Except.error DecodeError.TruncatedInput
    ∧ DecodeError.TruncatedInput ≠ DecodeError.InvalidCount := by decide

/-- C4, amended.  The decoder has no InvalidCount path at all: every
failing decode, including every absurdly-large declared count, reports
the single truncation error (the struct unpack failing on the bytes
that remained).  No count is validated before its read is attempted. -/
theorem c4_only_truncation_error :
    ∀ buf e, decode_model buf = Except.error e → e = DecodeError.TruncatedInput := by
  intro buf e h
  unfold decode_model at h
  cases hc : read_file_core buf with
  | ok r => rw [hc] at h; exact absurd h (by simp)
  | error e2 =>
    rw [hc] at h
    injection h with h1
    rw [← h1]
    exact read_file_core_err buf e2 hc

/-- C4, witness: the huge-count file fails and its error is the
truncation error. -/
theorem c4_only_truncation_error_witness :
    decode_model c4buf = Except.error DecodeError.TruncatedInput
    ∧ DecodeError.TruncatedInput = DecodeError.TruncatedInput :=
  ⟨by decide, c4_only_truncation_error c4buf DecodeError.TruncatedInput (by decide)⟩

theorem readSubmeshObjs_length (buf : List Nat) :
    ∀ n p objs p', readSubmeshObjs buf n p = Except.ok (objs, p') → objs.length = n := by
  intro n
  induction n with
  | zero =>
    intro p objs p' h
    unfold readSubmeshObjs at h
    injection h with h1
    injection h1 with h2 h3
    rw [← h2]
    rfl
  | succ k ih =>
    intro p objs p' h
    unfold readSubmeshObjs at h
    rw [andThen_ok_iff] at h
    obtain ⟨d, p1, h1, h⟩ := h
    rw [andThen_ok_iff] at h
    obtain ⟨rest, p2, h2, h⟩ := h
    injection h with h3
    injection h3 with h4 h5
    rw [← h4]
    simp [ih p1 rest p2 h2]

/-- C7.  A file whose header parses (at least the 17 header bytes are
present), whose submesh-count word (the u32 at offset 13) is N, and whose
body holds N sequentially well-formed submesh records, decodes to exactly
N built objects; the loop appends them in file order (readSubmeshObjs
conses each decoded submesh in front of the rest of the sequence, so the
list order is the file order). -/
theorem c7_submesh_count :
    ∀ buf n objs p', 17 ≤ buf.length →
      unpackLE (byteSlice buf 13 4) = n →
      readSubmeshObjs buf n 17 = Except.ok (objs, p') →
      decode_model buf = Except.ok objs ∧ objs.length = n := by
  intro buf n objs p' hlen hcount hloop
  have h1 : readExact buf 0 1 = Except.ok (byteSlice buf 0 1, 0 + 1) :=
    readExact_full buf 0 1 (by rw [byteSlice_length]; omega)
  have h2 : readExact buf (0 + 1) 12
      = Except.ok (byteSlice buf (0 + 1) 12, 0 + 1 + 12) :=
    readExact_full buf (0 + 1) 12 (by rw [byteSlice_length]; omega)
  have h3 : readU32 buf (0 + 1 + 12) = Except.ok (n, 17) := by
    unfold readU32
    rw [readExact_full buf (0 + 1 + 12) 4 (by rw [byteSlice_length]; omega), andThen_okC]
    rw [show (0 : Nat) + 1 + 12 = 13 from rfl, hcount]
  constructor
  · unfold decode_model read_file_core
    rw [h1, andThen_okC, h2, andThen_okC, h3, andThen_okC, hloop]
  · exact readSubmeshObjs_length buf n 17 objs p' hloop

/-- C7, witness: the minimal one-submesh file. -/
theorem c7_submesh_count_witness :
    decode_model (mkDemoFile 0 0 0 0 0 0 0 0 0 0 0 0) = Except.ok [demoObj]
    ∧ [demoObj].length = 1 :=
  c7_submesh_count (mkDemoFile 0 0 0 0 0 0 0 0 0 0 0 0) 1 [demoObj] 68
    (by decide) (by decide) (by decide)

/-- C10.  Decoding is deterministic and depends only on the input bytes:
the decoder is modelled as a pure function of the byte buffer (the source
reads only from the file object and local state), so equal byte buffers
decode to identical results.  (Host-side name deduplication of created
scene objects is outside the decoded data.) -/
theorem c10_determinism :
    ∀ b1 b2 : List Nat, b1 = b2 → decode_model b1 = decode_model b2 := by
  intro b1 b2 h
  rw [h]

/-- C10, witness. -/
theorem c10_determinism_witness :
    minimalSub = minimalSub ∧ decode_model minimalSub = decode_model minimalSub :=
  ⟨rfl, c10_determinism minimalSub minimalSub rfl⟩

/-- C3, counterexample.  Two whole files differing only in reserved
fields (header byte, header words, uv/normal/extra flags, reserved u32,
reserved tail words) decode to the SAME result, so no re-encoding of the
decoded structure can reproduce the original bytes of those fields: the
source reads the reserved fields into local variables and discards them
(they are not part of any created object). -/
theorem c3_counterexample :
    decode_model (mkDemoFile 1 2 3 4 5 6 7 8 9 10 11 12)
      = decode_model (mkDemoFile 0 0 0 0 0 0 0 0 0 0 0 0)
    ∧ mkDemoFile 1 2 3 4 5 6 7 8 9 10 11 12 ≠ mkDemoFile 0 0 0 0 0 0 0 0 0 0 0 0
    ∧ decode_model (mkDemoFile 0 0 0 0 0 0 0 0 0 0 0 0) = Except.ok [demoObj] := by
  decide

set_option maxHeartbeats 3200000 in
/-- C3, amended.  Reserved fields are consumed at their fixed byte
positions (the layout is honoured) but NOT preserved in the decoded
result: the decode output of the one-submesh demo file is one fixed
object, the same for EVERY value of the header byte, the three header
words, the uv/normal/extra flags, the reserved u32 and the four reserved
tail words; hence re-encoding from the decoded result cannot reproduce
those bytes. -/
theorem c3_reserved_not_preserved :
    ∀ hb w1 w2 w3 uvf nf ef rsv t1 t2 t3 t4 : Nat,
      decode_model (mkDemoFile hb w1 w2 w3 uvf nf ef rsv t1 t2 t3 t4)
        = Except.ok [demoObj] :=
  fun _ _ _ _ _ _ _ _ _ _ _ _ => rfl
